import Mathlib

/-!
# Verification of the dbfriend-cloud change detector and quality-check core

Shallow embedding of the change-detection run
(`backend/services/geometry_service.py`), its confidence scorer and
"problematic" predicate, the spatial-test configuration
(`backend/services/test_config.py`), and the quality-check dispatch
(`backend/api/v1/monitoring.py`).

Conventions of the embedding:
* The MD5 digest used by the hashers is an external primitive
  (`hashlib.md5`); every definition that hashes takes it as an explicit
  function parameter `md5 : String → String`.  No property of the digest
  beyond it being a function is ever used.
* Python floats coming from the external PostGIS source are modelled as
  rationals; the coordinate-bound columns (`min_x`, …), on which the code
  explicitly tests NaN and ±infinity, are modelled by `EFloat`, which
  carries those special values with their IEEE comparison behaviour.
* SQL NULL is `Option.none`.
* The local SQLAlchemy session is modelled by `Session`: `snaps`/`diffs`
  are committed table contents, `pendSnaps`/`pendDiffs` are writes that
  were flushed but not committed (the session has autoflush, so queries
  see committed and pending rows), `commits` counts commit calls.
* Insert failures with a self-recoverable dimension-constraint violation
  (the `enforce_dims_geometry` branch) are driven by an oracle
  `dimFail : Nat → Bool` indexed by the ordinal of the insert attempt.
-/

namespace DbfriendCloud

/-- Float values produced by the external source for the coordinate-bound
columns: NaN, +inf, -inf, or a finite value (as a rational). -/
inductive EFloat where
  | nan : EFloat
  | posInf : EFloat
  | negInf : EFloat
  | finite : ℚ → EFloat
deriving DecidableEq

/-- Python `coord != coord` (true exactly for NaN). -/
def EFloat.selfNe : EFloat → Bool
  | .nan => true
  | _ => false

/-- Python `coord == float('inf')`. -/
def EFloat.eqPosInf : EFloat → Bool
  | .posInf => true
  | _ => false

/-- Python `coord == float('-inf')`. -/
def EFloat.eqNegInf : EFloat → Bool
  | .negInf => true
  | _ => false

/-- Python `abs(coord) > b` for a finite positive bound `b`:
`abs(nan) > b` is false, `abs(±inf) > b` is true. -/
def EFloat.absGt (c : EFloat) (b : ℚ) : Bool :=
  match c with
  | .nan => false
  | .posInf => true
  | .negInf => true
  | .finite q => decide (b < |q|)

/-- A Python value stored in a non-geometry column of the streamed row.
`str s` / `int n` / `num q` / `bool b` are the scalar types the detector
keeps as they are (`isinstance(value, (str, int, float, bool))`); `other`
is any non-scalar value, carried as its `str(...)` rendering (the exact
rendering of non-scalar and float values is opaque to every claim: only
key sets and determinism matter). -/
inductive AttrVal where
  | str : String → AttrVal
  | int : ℤ → AttrVal
  | num : ℚ → AttrVal
  | bool : Bool → AttrVal
  | other : String → AttrVal
deriving DecidableEq

/-- Source: `str(value)` as used in `f"{k}:{v}"` and in `str(attributes.get(...))`. -/
def AttrVal.pyStr : AttrVal → String
  | .str s => s
  | .int n => toString n
  | .num q => toString q
  | .bool b => if b then "True" else "False"
  | .other s => s

/-- Python truthiness, for `attributes.get('id') or attributes.get('gid') or ''`. -/
def AttrVal.pyTruthy : AttrVal → Bool
  | .str s => !(s = "")
  | .int n => !(n = 0)
  | .num q => !(q = 0)
  | .bool b => b
  | .other s => !(s = "")

/-- Source: `str(value) if not isinstance(value, (str, int, float, bool)) else value`
(geometry_service.py line 159). -/
def AttrVal.toStored : AttrVal → AttrVal
  | .other s => .str s
  | v => v

/-- One row streamed from the external PostGIS query
(geometry_service.py lines 93-120).  The scalar fields are the
server-derived aliases; `cols` is the full `row.items()` view (every
column name with its value, SQL NULL as `none`) used to build the
attribute mapping.  `geometry_hash` is the value of the
`MD5(ST_AsBinary(...))` alias. -/
structure Row where
  geometry_wkb : String
  geometry_hash : String
  is_valid : Bool
  is_simple : Bool
  is_topologically_clean : Bool
  geom_area : Option ℚ
  geom_length : Option ℚ
  num_points : Option ℤ
  geom_type : String
  min_x : Option EFloat
  max_x : Option EFloat
  min_y : Option EFloat
  max_y : Option EFloat
  cols : List (String × Option AttrVal)
deriving DecidableEq

/-- Source: `sub` occurs in `l` as a contiguous sublist (Python `sub in s`). -/
def charPrefixOf : List Char → List Char → Bool
  | [], _ => true
  | _ :: _, [] => false
  | a :: as, b :: bs => a = b && charPrefixOf as bs

/-- Substring search over character lists. -/
def charContains (sub : List Char) : List Char → Bool
  | [] => charPrefixOf sub []
  | l@(_ :: rest) => charPrefixOf sub l || charContains sub rest

/-- Python `sub in s` on strings. -/
def strContains (s sub : String) : Bool :=
  charContains sub.data s.data

/-! ## Test configuration (`backend/services/test_config.py`)

Only the knobs the change detector reads are embedded; each constant is
the literal from `TestConfig`. -/

namespace TestConfig

/-- Source: `VALIDITY_CONFIG["max_coordinate_magnitude"]`, via `get_coordinate_bounds`. -/
def get_coordinate_bounds : ℚ := 20000000

/-- Source: `CONFIDENCE_CONFIG["problematic_geometry_confidence_threshold"]`, via
`get_confidence_threshold` (test_config.py lines 246-249). -/
def get_confidence_threshold : ℚ := mkRat 3 4

/-- Source: `get_area_thresholds()["large_threshold"]` at the default unit scale 1.0:
`AREA_CONFIG["large_area_threshold"] * 1.0²`. -/
def area_large_threshold : ℚ := 1000000

/-- Source: `get_length_thresholds()["large_threshold"]` at the default unit scale:
`AREA_CONFIG["large_length_threshold"] * 1.0`. -/
def length_large_threshold : ℚ := 10000000

/-- Source: `VALIDITY_CONFIG["min_polygon_points"]`. -/
def min_polygon_points : ℤ := 4

/-- Source: `VALIDITY_CONFIG["min_linestring_points"]`. -/
def min_linestring_points : ℤ := 2

/-- Source: `CONFIDENCE_CONFIG` entries read through `conf_config.get(key, default)`;
every key the detector asks for is present in the dict, so the dict value
(not the call-site default) is returned. -/
def invalid_geometry_confidence : ℚ := mkRat 19 20

/-- Source: `CONFIDENCE_CONFIG["non_simple_geometry_confidence"]`. -/
def non_simple_geometry_confidence : ℚ := mkRat 9 10

/-- Source: `CONFIDENCE_CONFIG["topologically_unclean_confidence"]`. -/
def topologically_unclean_confidence : ℚ := mkRat 17 20

/-- Source: `CONFIDENCE_CONFIG["zero_area_polygon_confidence"]`. -/
def zero_area_polygon_confidence : ℚ := mkRat 9 10

/-- Source: `CONFIDENCE_CONFIG["zero_length_line_confidence"]`. -/
def zero_length_line_confidence : ℚ := mkRat 9 10

/-- Source: `CONFIDENCE_CONFIG["large_geometry_confidence"]` (read at both the
large-area site, line 613, and the large-length site, line 615: both use
the key `large_geometry_confidence`). -/
def large_geometry_confidence : ℚ := mkRat 7 10

/-- Source: `CONFIDENCE_CONFIG["degenerate_geometry_confidence"]`. -/
def degenerate_geometry_confidence : ℚ := mkRat 19 20

/-- Source: `CONFIDENCE_CONFIG["insufficient_points_confidence"]` (polygon site). -/
def insufficient_points_confidence_polygon : ℚ := mkRat 9 10

/-- The linestring insufficient-points site reads the same dict key
`insufficient_points_confidence` with call-site default 0.85; the key is
present, so 0.90 is returned (geometry_service.py line 623). -/
def insufficient_points_confidence_line : ℚ := mkRat 9 10

/-- Source: `CONFIDENCE_CONFIG["suspicious_coordinates_confidence"]`. -/
def suspicious_coordinates_confidence : ℚ := mkRat 3 4

/-- Source: `CONFIDENCE_CONFIG["default_confidence"]`. -/
def default_confidence : ℚ := mkRat 1 2

/-- Source: `CONFIDENCE_CONFIG["complex_geometry_confidence_reduction"]`. -/
def complex_geometry_confidence_reduction : ℚ := mkRat 9 10

/-- Source: `CONFIDENCE_CONFIG["very_complex_geometry_confidence_reduction"]`. -/
def very_complex_geometry_confidence_reduction : ℚ := mkRat 4 5

/-- Source: `CONFIDENCE_CONFIG["complex_geometry_point_threshold"]`. -/
def complex_geometry_point_threshold : ℤ := 100

/-- Source: `CONFIDENCE_CONFIG["very_complex_geometry_point_threshold"]`. -/
def very_complex_geometry_point_threshold : ℤ := 1000

end TestConfig

/-! ## Hashing (`GeometryService.compute_*_hash`) and attribute building -/

/-- Insert `(k, v)` into a Python dict modelled as an association list:
an existing key is overwritten in place, a new key is appended. -/
def dictInsert (m : List (String × AttrVal)) (k : String) (v : AttrVal) :
    List (String × AttrVal) :=
  if m.any (fun p => p.1 = k) then
    m.map (fun p => if p.1 = k then (k, v) else p)
  else m ++ [(k, v)]

/-- The exclusion test of the attribute loop (geometry_service.py line
156): `key not in [dataset.geometry_column, 'geometry_wkb',
'geometry_hash', 'is_valid', 'geom_area']` — these five names and no
others. -/
def excludedKey (geometry_column k : String) : Bool :=
  k = geometry_column || k = "geometry_wkb" || k = "geometry_hash"
    || k = "is_valid" || k = "geom_area"

/-- The attribute mapping built per row (geometry_service.py lines 153-159
and, identically, lines 450-455): every column whose name is not excluded
and whose value is not NULL is kept, non-scalar values stringified. -/
def build_attributes (geometry_column : String)
    (cols : List (String × Option AttrVal)) : List (String × AttrVal) :=
  cols.foldl (fun m kv =>
    if excludedKey geometry_column kv.1 then m
    else match kv.2 with
      | none => m
      | some v => dictInsert m kv.1 v.toStored) []

/-- Insertion into a key-sorted association list (keys in the built dict are
distinct, so the tie branch is immaterial and Python's stable sort agrees). -/
def insertByKey (p : String × AttrVal) :
    List (String × AttrVal) → List (String × AttrVal)
  | [] => [p]
  | q :: rest => if p.1 ≤ q.1 then p :: q :: rest else q :: insertByKey p rest

/-- Source: `sorted(attributes.items())`: ascending by key. -/
def sortByKey (l : List (String × AttrVal)) : List (String × AttrVal) :=
  l.foldr insertByKey []

/-- Source: `GeometryService.compute_attributes_hash` (geometry_service.py lines
41-50): MD5 of `"k1:v1|k2:v2|..."` over the key-sorted pairs; the empty
mapping hashes the empty string. -/
def compute_attributes_hash (md5 : String → String)
    (attributes : List (String × AttrVal)) : String :=
  if attributes = [] then md5 "" else
    md5 (String.intercalate "|"
      ((sortByKey attributes).map (fun p => p.1 ++ ":" ++ p.2.pyStr)))

/-- Source: `GeometryService.compute_composite_hash` (geometry_service.py lines
52-56): MD5 of `"geom:<geometry_hash>|attrs:<attributes_hash>"`. -/
def compute_composite_hash (md5 : String → String)
    (geometry_hash attributes_hash : String) : String :=
  md5 ("geom:" ++ geometry_hash ++ "|attrs:" ++ attributes_hash)

/-- Source: `str(attributes.get('id') or attributes.get('gid') or '')`
(geometry_service.py line 173 etc.). -/
def source_id_of (attributes : List (String × AttrVal)) : String :=
  let pick := fun k =>
    match attributes.find? (fun p => p.1 = k) with
    | some p => if p.2.pyTruthy then some p.2 else none
    | none => none
  match pick "id" with
  | some v => v.pyStr
  | none =>
    match pick "gid" with
    | some v => v.pyStr
    | none => ""

/-! ## Confidence scorer and "problematic" threshold predicate -/

/-- The coordinate-bound columns of a row, in the order the code lists them
(`[row.get('min_x'), row.get('max_x'), row.get('min_y'), row.get('max_y')]`). -/
def coordsOf (r : Row) : List (Option EFloat) :=
  [r.min_x, r.max_x, r.min_y, r.max_y]

/-- Some non-NULL coordinate bound has `abs(coord) >
max_coordinate_magnitude` (the loop in `_calculate_confidence_score`,
lines 626-630; applying `max confidence 0.75` once per offending
coordinate equals applying it once if any offends). -/
def coordSuspicious (r : Row) : Bool :=
  (coordsOf r).any (fun c =>
    match c with
    | none => false
    | some c => c.absGt TestConfig.get_coordinate_bounds)

/-- Some non-NULL coordinate bound is NaN or ±infinity (the loop in
`_is_geometry_problematic`, lines 556-561: `coord != coord or coord ==
float('inf') or coord == float('-inf')`). -/
def coordCritical (r : Row) : Bool :=
  (coordsOf r).any (fun c =>
    match c with
    | none => false
    | some c => c.selfNe || c.eqPosInf || c.eqNegInf)

/-- Source: `GeometryService._calculate_confidence_score` (geometry_service.py
lines 574-643).  `row.get('geom_area', 0) or 0` maps NULL to 0. -/
def calculate_confidence_score (r : Row) : ℚ :=
  let geom_area := r.geom_area.getD 0
  let geom_length := r.geom_length.getD 0
  let num_points := r.num_points.getD 0
  let gt := r.geom_type
  let confidence : ℚ :=
    if !r.is_valid then TestConfig.invalid_geometry_confidence
    else if !r.is_simple then TestConfig.non_simple_geometry_confidence
    else if !r.is_topologically_clean then TestConfig.topologically_unclean_confidence
    else if geom_area ≤ 0 ∧ strContains gt "Polygon" then
      TestConfig.zero_area_polygon_confidence
    else if geom_length ≤ 0 ∧ (strContains gt "LineString" ∨ strContains gt "Line") then
      TestConfig.zero_length_line_confidence
    else if geom_area > TestConfig.area_large_threshold then
      TestConfig.large_geometry_confidence
    else if geom_length > TestConfig.length_large_threshold then
      TestConfig.large_geometry_confidence
    else if num_points ≤ 1 then TestConfig.degenerate_geometry_confidence
    else if strContains gt "Polygon" ∧ num_points < TestConfig.min_polygon_points then
      TestConfig.insufficient_points_confidence_polygon
    else if (strContains gt "LineString" ∨ strContains gt "Line")
        ∧ num_points < TestConfig.min_linestring_points then
      TestConfig.insufficient_points_confidence_line
    else TestConfig.default_confidence
  let confidence :=
    if coordSuspicious r then
      max confidence TestConfig.suspicious_coordinates_confidence
    else confidence
  let confidence :=
    if num_points > TestConfig.very_complex_geometry_point_threshold then
      confidence * TestConfig.very_complex_geometry_confidence_reduction
    else if num_points > TestConfig.complex_geometry_point_threshold then
      confidence * TestConfig.complex_geometry_confidence_reduction
    else confidence
  max 0 (min 1 confidence)

/-- Source: `GeometryService._is_geometry_problematic` (geometry_service.py lines
510-572): the ordered chain of short-circuits followed by the
confidence-threshold comparison. -/
def is_geometry_problematic (r : Row) : Bool :=
  if !r.is_valid then true
  else if !r.is_simple then true
  else if !r.is_topologically_clean then true
  else
    let geom_area := r.geom_area.getD 0
    let geom_length := r.geom_length.getD 0
    let gt := r.geom_type
    if strContains gt "Polygon" ∧ geom_area ≤ 0 then true
    else if (strContains gt "LineString" ∨ strContains gt "Line") ∧ geom_length ≤ 0 then
      true
    else
      let num_points := r.num_points.getD 0
      if num_points ≤ 1 ∧ ¬(strContains gt "Point" = true) then true
      else if coordCritical r then true
      else decide (calculate_confidence_score r ≥ TestConfig.get_confidence_threshold)

/-! ## Store records -/

/-- A row of `geometry_snapshots` (database.py lines 111-140).  `id` is a
`Nat` surrogate for the UUID primary key; the PostGIS geometry value is
irrelevant to every claim and omitted. -/
structure GeometrySnapshot where
  id : Nat
  dataset_id : Nat
  source_id : String
  geometry_hash : String
  attributes_hash : String
  composite_hash : String
  attributes : List (String × AttrVal)
deriving DecidableEq

/-- A row of `geometry_diffs` (database.py lines 142-174); `status`
defaults to `"PENDING"` on insert. -/
structure GeometryDiff where
  dataset_id : Nat
  diff_type : String
  old_snapshot_id : Option Nat
  new_snapshot_id : Option Nat
  geometry_changed : Bool
  attributes_changed : Bool
  confidence_score : ℚ
  status : String
deriving DecidableEq

/-- Source: `GeometryService._determine_diff_type` (geometry_service.py lines
782-799): the first prior snapshot with the same `geometry_hash` decides
UPDATED vs DUPLICATE; no match means NEW. -/
def determine_diff_type (geometry_hash attributes_hash : String) :
    List GeometrySnapshot → String
  | [] => "NEW"
  | s :: rest =>
    if s.geometry_hash = geometry_hash then
      if ¬(s.attributes_hash = attributes_hash) then "UPDATED" else "DUPLICATE"
    else determine_diff_type geometry_hash attributes_hash rest

/-! ## The local session and the change-detection run
(`GeometryService.monitor_dataset_changes`, geometry_service.py lines
74-508)

The run operates on the snapshots and diffs of one dataset; `snaps` /
`diffs` are the committed rows for that dataset, `pendSnaps` /
`pendDiffs` the rows flushed by this run but not yet committed (the
session autoflushes, so in-run queries see both). -/

structure Session where
  snaps : List GeometrySnapshot
  diffs : List GeometryDiff
  pendSnaps : List GeometrySnapshot
  pendDiffs : List GeometryDiff
  commits : Nat
  attempts : Nat
  snapshots_created : Nat
  diffs_detected : Nat
  nextId : Nat
deriving DecidableEq

/-- Rows a query sees: committed plus flushed-pending snapshots. -/
def Session.visSnaps (s : Session) : List GeometrySnapshot :=
  s.snaps ++ s.pendSnaps

/-- Rows a query sees: committed plus flushed-pending diffs. -/
def Session.visDiffs (s : Session) : List GeometryDiff :=
  s.diffs ++ s.pendDiffs

/-- Source: `await self.db.rollback()`: uncommitted writes are discarded. -/
def rollbackS (s : Session) : Session :=
  { s with pendSnaps := [], pendDiffs := [] }

/-- Source: `await self.db.commit()`: pending writes become durable. -/
def commitS (s : Session) : Session :=
  { s with snaps := s.snaps ++ s.pendSnaps, diffs := s.diffs ++ s.pendDiffs,
           pendSnaps := [], pendDiffs := [], commits := s.commits + 1 }

/-- The pending-diff query (geometry_service.py lines 222-232): does a
PENDING diff exist whose new snapshot belongs to this dataset and has
this `geometry_hash`? -/
def exists_pending_for_geometry (snaps : List GeometrySnapshot)
    (diffs : List GeometryDiff) (did : Nat) (g : String) : Bool :=
  diffs.any (fun d => d.status = "PENDING" &&
    match d.new_snapshot_id with
    | some sid => snaps.any (fun p => p.id = sid && p.dataset_id = did && p.geometry_hash = g)
    | none => false)

/-- The `GeometrySnapshot(...)` constructor call the run makes at every
insert site (identical at all of them). -/
def mkSnapshot (did id : Nat) (gh ah ch : String)
    (attrs : List (String × AttrVal)) : GeometrySnapshot :=
  { id := id, dataset_id := did, source_id := source_id_of attrs,
    geometry_hash := gh, attributes_hash := ah, composite_hash := ch,
    attributes := attrs }

/-- Source: `self.db.add(snapshot); await self.db.flush()` on a successful flush:
the snapshot (with a fresh surrogate id) joins the pending writes and
`snapshots_created` is incremented.  Returns the new id. -/
def insertSnap (did : Nat) (gh ah ch : String) (attrs : List (String × AttrVal))
    (s : Session) : Session × Nat :=
  let id := s.nextId
  ({ s with pendSnaps := s.pendSnaps ++ [mkSnapshot did id gh ah ch attrs],
            nextId := id + 1,
            snapshots_created := s.snapshots_created + 1 }, id)

/-- One snapshot insert with the dimension-constraint self-repair
(the pattern at geometry_service.py lines 170-211, 240-280 and 283-324):
if the flush raises the `enforce_dims_geometry` violation (oracle
`dimFail` at the current attempt ordinal), the run rolls back,
`_ensure_mixed_dimension_support` commits the schema repair (lines
934-972), and the insert is retried exactly once; a second failure
abandons the row (`continue`).  Returns the created id, if any. -/
def tryInsertSnapshot (dimFail : Nat → Bool) (did : Nat) (gh ah ch : String)
    (attrs : List (String × AttrVal)) (s : Session) : Session × Option Nat :=
  let k := s.attempts
  let s := { s with attempts := k + 1 }
  if dimFail k then
    let s := commitS (rollbackS s)
    let k2 := s.attempts
    let s := { s with attempts := k2 + 1 }
    if dimFail k2 then (s, none)
    else
      let (s, id) := insertSnap did gh ah ch attrs s
      (s, some id)
  else
    let (s, id) := insertSnap did gh ah ch attrs s
    (s, some id)

/-- Building and adding the diff record for a snapshot (geometry_service.py
lines 344-382 and, on the retry path, 408-432): classify, start from a
NEW-shaped record, and if the type is UPDATED re-point it at the first
prior snapshot with the same `geometry_hash`. -/
def addDiffFor (did : Nat) (r : Row) (ah : String)
    (priors : List GeometrySnapshot) (snapId : Nat) (s : Session) : Session :=
  let dt := determine_diff_type r.geometry_hash ah priors
  let base : GeometryDiff :=
    { dataset_id := did, diff_type := dt, old_snapshot_id := none,
      new_snapshot_id := some snapId, geometry_changed := true,
      attributes_changed := false,
      confidence_score := calculate_confidence_score r, status := "PENDING" }
  let d :=
    match (if dt = "UPDATED" then
        priors.find? (fun p => p.geometry_hash = r.geometry_hash)
      else none) with
    | some p =>
      { base with
          old_snapshot_id := some p.id
          geometry_changed := false
          attributes_changed := true }
    | none => base
  { s with pendDiffs := s.pendDiffs ++ [d],
           diffs_detected := s.diffs_detected + 1 }

/-- One row of a baseline run (geometry_service.py lines 167-211):
unconditionally insert a snapshot, never a diff. -/
def baselineRowStep (md5 : String → String) (dimFail : Nat → Bool)
    (did : Nat) (gc : String) (s : Session) (r : Row) : Session :=
  let attributes := build_attributes gc r.cols
  let ah := compute_attributes_hash md5 attributes
  let ch := compute_composite_hash md5 r.geometry_hash ah
  (tryInsertSnapshot dimFail did r.geometry_hash ah ch attributes s).1

/-- One row of a change-detection run (geometry_service.py lines 212-442),
with the branch structure exactly as indented in the source:

* unchanged composite hash → skip (line 440);
* `_is_geometry_problematic` and a PENDING diff exists for the geometry →
  snapshot only (lines 237-280);
* `_is_geometry_problematic` and no pending diff → **nothing** (the
  creation block starting at line 326 sits inside the `else:` of line
  281, so the problematic-without-pending path falls through the row);
* not problematic → the snapshot insert of lines 283-324, then the second
  insert-plus-diff block of lines 326-439 (whose constraint-repair retry
  recreates both the snapshot and the diff, without the
  existing-diff check of lines 349-359). -/
def changeRowStep (md5 : String → String) (dimFail : Nat → Bool)
    (did : Nat) (gc : String) (priors : List GeometrySnapshot)
    (s : Session) (r : Row) : Session :=
  let attributes := build_attributes gc r.cols
  let ah := compute_attributes_hash md5 attributes
  let ch := compute_composite_hash md5 r.geometry_hash ah
  if (priors.map (fun p => p.composite_hash)).contains ch then s
  else if is_geometry_problematic r then
    if exists_pending_for_geometry s.visSnaps s.visDiffs did r.geometry_hash then
      (tryInsertSnapshot dimFail did r.geometry_hash ah ch attributes s).1
    else s
  else
    match tryInsertSnapshot dimFail did r.geometry_hash ah ch attributes s with
    | (s1, none) => s1
    | (s1, some _) =>
      let k := s1.attempts
      let s1 := { s1 with attempts := k + 1 }
      if dimFail k then
        let s2 := commitS (rollbackS s1)
        let k2 := s2.attempts
        let s2 := { s2 with attempts := k2 + 1 }
        if dimFail k2 then s2
        else
          let (s3, id) := insertSnap did r.geometry_hash ah ch attributes s2
          addDiffFor did r ah priors id s3
      else
        let (s2, id) := insertSnap did r.geometry_hash ah ch attributes s1
        if s2.visDiffs.any (fun d => d.new_snapshot_id = some id) then s2
        else addDiffFor did r ah priors id s2

/-- Insert a snapshot into the Python dict
`{snap.composite_hash: snap for snap in existing_snapshots}`: an existing
key keeps its position but takes the later value. -/
def snapshotDictInsert (m : List (String × GeometrySnapshot))
    (p : GeometrySnapshot) : List (String × GeometrySnapshot) :=
  if m.any (fun q => q.1 = p.composite_hash) then
    m.map (fun q => if q.1 = p.composite_hash then (p.composite_hash, p) else q)
  else m ++ [(p.composite_hash, p)]

/-- Source: `existing_hashes` (geometry_service.py line 130). -/
def existing_hashes_dict (priors : List GeometrySnapshot) :
    List (String × GeometrySnapshot) :=
  priors.foldl snapshotDictInsert []

/-- Source: `current_hashes` (geometry_service.py lines 447-459): composite hashes
of all streamed rows, rebuilt with the same attribute logic. -/
def current_composite_hashes (md5 : String → String) (gc : String)
    (rows : List Row) : List String :=
  rows.map (fun r =>
    compute_composite_hash md5 r.geometry_hash
      (compute_attributes_hash md5 (build_attributes gc r.cols)))

/-- The DELETED diff record (geometry_service.py lines 467-473):
`new_snapshot_id` and `attributes_changed` keep their column defaults. -/
def deleted_diff (did : Nat) (p : GeometrySnapshot) : GeometryDiff :=
  { dataset_id := did, diff_type := "DELETED", old_snapshot_id := some p.id,
    new_snapshot_id := none, geometry_changed := true,
    attributes_changed := false, confidence_score := 1, status := "PENDING" }

/-- The deletion pass (geometry_service.py lines 444-475): one DELETED
diff per entry of `existing_hashes` whose key is absent from
`current_hashes`. -/
def deletionPass (md5 : String → String) (did : Nat) (gc : String)
    (priors : List GeometrySnapshot) (rows : List Row) (s : Session) : Session :=
  let current := current_composite_hashes md5 gc rows
  (existing_hashes_dict priors).foldl (fun s hp =>
    if current.contains hp.1 then s
    else { s with pendDiffs := s.pendDiffs ++ [deleted_diff did hp.2],
                  diffs_detected := s.diffs_detected + 1 }) s

/-- The body of `monitor_dataset_changes` up to (excluding) the final
commit: baseline runs insert a snapshot per row and skip the deletion
pass; change-detection runs process each row and then run the deletion
pass.  `priors` are the dataset's committed snapshots at run start,
`diffs0` its committed diffs; `nextId0` seeds the surrogate ids. -/
def monitor_body (md5 : String → String) (dimFail : Nat → Bool)
    (did : Nat) (gc : String) (priors : List GeometrySnapshot)
    (diffs0 : List GeometryDiff) (rows : List Row) (nextId0 : Nat) : Session :=
  let s0 : Session :=
    { snaps := priors, diffs := diffs0, pendSnaps := [], pendDiffs := [],
      commits := 0, attempts := 0, snapshots_created := 0,
      diffs_detected := 0, nextId := nextId0 }
  if priors.length = 0 then
    rows.foldl (baselineRowStep md5 dimFail did gc) s0
  else
    deletionPass md5 did gc priors rows
      (rows.foldl (changeRowStep md5 dimFail did gc priors) s0)

/-- Source: `monitor_dataset_changes`: the run body followed by the single final
commit (geometry_service.py line 480). -/
def monitor_dataset_changes (md5 : String → String) (dimFail : Nat → Bool)
    (did : Nat) (gc : String) (priors : List GeometrySnapshot)
    (diffs0 : List GeometryDiff) (rows : List Row) (nextId0 : Nat) : Session :=
  commitS (monitor_body md5 dimFail did gc priors diffs0 rows nextId0)

/-- The number of PENDING diffs in the store for one `(dataset_id,
geometry_hash)` pair, with the same join the pending-diff query uses. -/
def count_pending_for (snaps : List GeometrySnapshot)
    (diffs : List GeometryDiff) (did : Nat) (g : String) : Nat :=
  diffs.countP (fun d => d.status = "PENDING" &&
    match d.new_snapshot_id with
    | some sid => snaps.any (fun p => p.id = sid && p.dataset_id = did && p.geometry_hash = g)
    | none => false)

/-! ## Quality-check dispatch (`backend/api/v1/monitoring.py`) -/

/-- The fields of a `Dataset` the quality-check endpoints read. -/
structure DatasetRec where
  id : String
  name : String
  last_check_at : Option Nat
deriving DecidableEq

/-- The progress sub-dict of a `QUALITY_CHECK_STATUS` entry. -/
structure QCProgress where
  current : Nat
  total : Nat
  phase : String
deriving DecidableEq

/-- A `QUALITY_CHECK_STATUS` entry (only the fields the claims mention). -/
structure QCEntry where
  status : String
  progress : Option QCProgress
  error : Option String
deriving DecidableEq

/-- The process-local `QUALITY_CHECK_STATUS` dict, keyed by dataset id. -/
abbrev QCMap := List (String × QCEntry)

/-- Dict lookup. -/
def qcLookup (m : QCMap) (k : String) : Option QCEntry :=
  (List.find? (fun p => p.1 = k) m).map (fun p => p.2)

/-- Dict assignment (overwrite or append). -/
def qcUpsert (m : QCMap) (k : String) (v : QCEntry) : QCMap :=
  if (List.any m (fun p => p.1 = k)) then
    List.map (fun p => if p.1 = k then (k, v) else p) m
  else m ++ [(k, v)]

/-- Outcome of the start endpoint: an `HTTPException` status code, or the
202-style immediate `started` response. -/
inductive StartOutcome where
  | httpError : Nat → StartOutcome
  | started : StartOutcome
deriving DecidableEq

/-- Source: `start_quality_checks` (monitoring.py lines 261-315).  `ds?` is the
result of the dataset query (`none` when the dataset is missing or
inactive). -/
def start_quality_checks (ds? : Option DatasetRec) (m : QCMap) :
    StartOutcome × QCMap :=
  match ds? with
  | none => (.httpError 404, m)
  | some ds =>
    if ds.last_check_at = none then (.httpError 400, m)
    else if ((qcLookup m ds.id).map (fun e => e.status) = some "running") then
      (.httpError 400, m)
    else (.started,
      qcUpsert m ds.id
        { status := "running", progress := some ⟨0, 0, "initializing"⟩,
          error := none })

/-- The number of positional arguments (after `self`)
`GeometryService.run_quality_checks` accepts: exactly one, `dataset`
(geometry_service.py line 645). -/
def run_quality_checks_parameter_count : Nat := 1

/-- The number of positional arguments the background task passes to it:
`dataset` and `update_progress` (monitoring.py line 447). -/
def run_quality_checks_call_argument_count : Nat := 2

/-- Whether the `Dataset` ORM object has a `get` attribute.  It does not
(database.py: a plain SQLAlchemy declarative model), so the
`dataset.get('name', 'Unknown')` in the except handler (monitoring.py
line 491) raises AttributeError. -/
def dataset_orm_has_get : Bool := false

/-- Source: `run_quality_checks_background` (monitoring.py lines 409-494) as a
transformer of the status map.  `engineResult` is what
`run_quality_checks` would return if the call reached it.  The call at
line 447 passes one more positional argument than the method accepts, so
it raises TypeError before the engine runs; the except handler at line
486 then evaluates `dataset.get('name', 'Unknown')` on the ORM object,
raising AttributeError, and the background task dies without updating
the status map. -/
def run_quality_checks_background (ds : DatasetRec)
    (engineResult : Except String (List (String × Nat))) (m : QCMap) : QCMap :=
  if run_quality_checks_call_argument_count = run_quality_checks_parameter_count then
    match engineResult with
    | .ok _ => qcUpsert m ds.id { status := "completed", progress := none, error := none }
    | .error e => qcUpsert m ds.id { status := "failed", progress := none, error := some e }
  else
    if dataset_orm_has_get then
      qcUpsert m ds.id { status := "failed", progress := none, error := some "TypeError" }
    else m

/-! ## Example data

Concrete rows, prior snapshots and diffs used by the counterexamples and
witnesses.  The digest function is instantiated as the identity on
strings, which is legitimate because no definition uses any property of
the digest beyond being a function. -/

/-- A healthy point feature; its composite hash under the identity digest
is `"geom:g0|attrs:"` (empty attribute mapping). -/
def rowPoint : Row :=
  { geometry_wkb := "w0", geometry_hash := "g0", is_valid := true,
    is_simple := true, is_topologically_clean := true,
    geom_area := some 0, geom_length := some 0, num_points := some 1,
    geom_type := "ST_Point", min_x := some (.finite 1), max_x := some (.finite 1),
    min_y := some (.finite 2), max_y := some (.finite 2), cols := [] }

/-- The prior snapshot of `rowPoint`, as a baseline run would have written
it with the identity digest. -/
def snapPoint : GeometrySnapshot :=
  { id := 1, dataset_id := 5, source_id := "", geometry_hash := "g0",
    attributes_hash := "", composite_hash := "geom:g0|attrs:",
    attributes := [] }

/-- An invalid self-intersecting polygon: fails OGC validity, hence also
topologically unclean; confidence score 0.95. -/
def rowInvalid : Row :=
  { geometry_wkb := "w1", geometry_hash := "g1", is_valid := false,
    is_simple := true, is_topologically_clean := false,
    geom_area := some 3, geom_length := some 8, num_points := some 7,
    geom_type := "ST_Polygon", min_x := some (.finite 1), max_x := some (.finite 2),
    min_y := some (.finite 1), max_y := some (.finite 2), cols := [] }

/-- A healthy two-point linestring with one attribute; nothing about it is
problematic (confidence score 0.5 < 0.75, no short-circuit). -/
def rowLine : Row :=
  { geometry_wkb := "w2", geometry_hash := "g2", is_valid := true,
    is_simple := true, is_topologically_clean := true,
    geom_area := some 0, geom_length := some 5, num_points := some 2,
    geom_type := "ST_LineString", min_x := some (.finite 0), max_x := some (.finite 3),
    min_y := some (.finite 0), max_y := some (.finite 4),
    cols := [("name", some (.str "road"))] }

/-! ## Claim C7 — the "problematic" predicate -/

/-- Modelled from the spec (claim C7's right-hand side): "its score ≥ the
configured threshold" or one of "the four critical conditions (invalid,
non-simple, topologically-unclean, zero/negative size)".  The four
critical conditions, as the claim words them. -/
def spec_critical_conditions (r : Row) : Bool :=
  !r.is_valid || !r.is_simple || !r.is_topologically_clean
    || (strContains r.geom_type "Polygon" && decide (r.geom_area.getD 0 ≤ 0))
    || ((strContains r.geom_type "LineString" || strContains r.geom_type "Line")
        && decide (r.geom_length.getD 0 ≤ 0))

/-- A valid, simple, clean row typed `ST_LineString` with positive length,
a single point, and a large `geom_area` value: the large-area score
branch fires before the degenerate branch, giving confidence 0.70, yet
the degenerate short-circuit in `_is_geometry_problematic` flags it. -/
def rowDegenerate : Row :=
  { geometry_wkb := "w7", geometry_hash := "g7", is_valid := true,
    is_simple := true, is_topologically_clean := true,
    geom_area := some 2000000, geom_length := some 5, num_points := some 1,
    geom_type := "ST_LineString", min_x := some (.finite 0), max_x := some (.finite 1),
    min_y := some (.finite 0), max_y := some (.finite 1), cols := [] }

/-- C7 fails on the code: `rowDegenerate` is flagged as problematic
although its confidence score is 0.70 < 0.75 and none of the four critical
conditions holds — the degenerate-geometry short-circuit (≤ 1 point on a
non-point type, geometry_service.py lines 549-552) is a fifth road to
`true` not covered by the claim. -/
theorem C7_counterexample :
    is_geometry_problematic rowDegenerate = true
      ∧ ¬(calculate_confidence_score rowDegenerate ≥ TestConfig.get_confidence_threshold
          ∨ spec_critical_conditions rowDegenerate = true) := by
  decide

set_option maxHeartbeats 1000000 in
/-- C7 (amended): `_is_geometry_problematic` returns true iff the score is
at or above the threshold, or one of the four critical conditions holds,
or the row is a degenerate non-point (at most one point on a non-Point
type), or some coordinate bound is NaN or ±infinity. -/
theorem C7_problematic_characterisation (r : Row) :
    is_geometry_problematic r = true ↔
      (spec_critical_conditions r = true
        ∨ (r.num_points.getD 0 ≤ 1 ∧ ¬(strContains r.geom_type "Point" = true))
        ∨ coordCritical r = true
        ∨ calculate_confidence_score r ≥ TestConfig.get_confidence_threshold) := by
  rw [is_geometry_problematic, spec_critical_conditions]
  cases hval : r.is_valid <;> cases hsim : r.is_simple <;>
    cases hcln : r.is_topologically_clean <;>
    simp only [hval, hsim, hcln, Bool.not_true, Bool.not_false, Bool.false_or,
      Bool.true_or, Bool.or_eq_true, Bool.and_eq_true, decide_eq_true_eq,
      if_true, if_false, ge_iff_le, Bool.true_eq_false, Bool.false_eq_true,
      false_or, or_false, true_or, or_true, iff_true, true_iff, false_iff]
  split_ifs with h4 h5 h6 h7 <;> simp_all
  constructor
  · exact fun h => Or.inr (Or.inr h)
  · rintro ((⟨hp, ha⟩ | ⟨hl, hle⟩) | ⟨hn, hpt⟩ | h)
    · exact absurd ha (not_le.mpr (h4 hp))
    · exact absurd hle (not_le.mpr (h5 hl))
    · exact Bool.noConfusion ((h6 hn).symm.trans hpt)
    · exact h

/-! ## Claim C9 — keys excluded from the attribute mapping -/

/-- Every key of `dictInsert m k v` is a key of `m` or is `k`. -/
theorem dictInsert_keys_subset (m : List (String × AttrVal)) (k : String)
    (v : AttrVal) (x : String) (hx : x ∈ (dictInsert m k v).map Prod.fst) :
    x ∈ m.map Prod.fst ∨ x = k := by
  unfold dictInsert at hx
  split_ifs at hx with h
  · simp only [List.map_map, List.mem_map, Function.comp] at hx
    obtain ⟨p, hp, heq⟩ := hx
    by_cases hpk : p.1 = k
    · right; simpa [hpk] using heq.symm
    · left
      simp only [hpk, if_false] at heq
      exact List.mem_map.mpr ⟨p, hp, heq⟩
  · rw [List.map_append, List.mem_append] at hx
    rcases hx with hx | hx
    · exact Or.inl hx
    · right; simpa using hx

/-- Source: `dictInsert` preserves a key predicate when the inserted key
satisfies it. -/
theorem dictInsert_keys_all (P : String → Bool) (m : List (String × AttrVal))
    (k : String) (v : AttrVal) (hk : P k = true)
    (hm : (m.map Prod.fst).all P = true) :
    (((dictInsert m k v).map Prod.fst).all P) = true := by
  rw [List.all_eq_true] at hm ⊢
  intro x hx
  rcases dictInsert_keys_subset m k v x hx with h | rfl
  · exact hm x h
  · exact hk

/-- The accumulator invariant of the attribute-building fold: keys that
enter the dict are never excluded ones. -/
theorem build_attributes_foldl_keys (gc : String) :
    ∀ (cols : List (String × Option AttrVal)) (m : List (String × AttrVal)),
      ((m.map Prod.fst).all (fun k => !excludedKey gc k) = true) →
      (((cols.foldl (fun m kv =>
          if excludedKey gc kv.1 then m
          else match kv.2 with
            | none => m
            | some v => dictInsert m kv.1 v.toStored) m).map Prod.fst).all
        (fun k => !excludedKey gc k)) = true := by
  intro cols
  induction cols with
  | nil => intro m hm; simpa using hm
  | cons kv rest ih =>
    intro m hm
    rw [List.foldl_cons]
    apply ih
    by_cases hex : excludedKey gc kv.1
    · simpa [hex] using hm
    · cases hv : kv.2 with
      | none => simpa [hex] using hm
      | some v =>
        simp only [hex, if_false, Bool.false_eq_true, hv]
        exact dictInsert_keys_all _ m kv.1 v.toStored (by simp [hex]) hm

/-- C9 fails on the code: the attribute loop excludes only five keys
(`geometry_column`, `geometry_wkb`, `geometry_hash`, `is_valid`,
`geom_area`), so the other server-derived scalars — here
`validity_reason`, `is_simple`, `geom_length`, `num_points`, `geom_type`
and `min_x` — all land in the attribute mapping. -/
theorem C9_counterexample :
    (((build_attributes "geom"
        [("geom", some (.other "POINT(0 0)")), ("id", some (.int 7)),
         ("validity_reason", some (.str "Valid Geometry")),
         ("is_simple", some (.bool true)), ("geom_length", some (.num 5)),
         ("num_points", some (.int 1)), ("geom_type", some (.str "ST_Point")),
         ("min_x", some (.num 0))]).map Prod.fst).contains "is_simple" = true)
    ∧ (((build_attributes "geom"
        [("geom", some (.other "POINT(0 0)")), ("id", some (.int 7)),
         ("validity_reason", some (.str "Valid Geometry")),
         ("is_simple", some (.bool true)), ("geom_length", some (.num 5)),
         ("num_points", some (.int 1)), ("geom_type", some (.str "ST_Point")),
         ("min_x", some (.num 0))]).map Prod.fst)
        = ["id", "validity_reason", "is_simple", "geom_length", "num_points",
           "geom_type", "min_x"]) := by
  decide

/-- C9 (amended): the attribute mapping never contains the geometry
column, `geometry_wkb`, `geometry_hash`, `is_valid` or `geom_area` — and
no key beyond these five is excluded. -/
theorem C9_excluded_keys (gc : String) (cols : List (String × Option AttrVal)) :
    (((build_attributes gc cols).map Prod.fst).all
      (fun k => !excludedKey gc k)) = true := by
  rw [build_attributes]
  exact build_attributes_foldl_keys gc cols [] (by simp)

/-! ## Claim C10 — the DUPLICATE branch is unreachable -/

/-- C10: when every prior snapshot's `composite_hash` is the composite
digest of its own geometry and attribute digests (how the detector writes
them), and the incoming row's composite hash matches no prior snapshot,
`_determine_diff_type` returns NEW or UPDATED — the DUPLICATE branch is
unreachable, because a prior with equal geometry and attribute digests
would have an equal composite digest. -/
theorem C10_determine_diff_type_no_duplicate (md5 : String → String)
    (g a : String) (priors : List GeometrySnapshot)
    (hwf : ∀ p ∈ priors,
      p.composite_hash = compute_composite_hash md5 p.geometry_hash p.attributes_hash)
    (hnew : compute_composite_hash md5 g a ∉ priors.map (fun p => p.composite_hash)) :
    determine_diff_type g a priors = "NEW"
      ∨ determine_diff_type g a priors = "UPDATED" := by
  induction priors with
  | nil => left; rfl
  | cons p rest ih =>
    rw [determine_diff_type]
    by_cases hg : p.geometry_hash = g
    · by_cases ha : p.attributes_hash = a
      · exfalso
        apply hnew
        have hcomp : p.composite_hash = compute_composite_hash md5 g a := by
          rw [hwf p (List.mem_cons_self p rest), hg, ha]
        simp [← hcomp]
      · right; simp [hg, ha]
    · have hrest := ih (fun q hq => hwf q (List.mem_cons_of_mem p hq))
        (fun hmem => hnew (by simp only [List.map_cons, List.mem_cons]; exact Or.inr hmem))
      simpa [hg] using hrest

/-- Witness for C10: one prior snapshot whose hashes satisfy the
well-formedness hypothesis under the identity digest, and an incoming
row hash pair absent from the priors. -/
theorem C10_witness :
    determine_diff_type "g1" "a1" [snapPoint] = "NEW"
      ∨ determine_diff_type "g1" "a1" [snapPoint] = "UPDATED" :=
  C10_determine_diff_type_no_duplicate (fun h => h) "g1" "a1" [snapPoint]
    (by decide) (by decide)

/-! ## Claims C1-C3 — the misindented creation block

In `monitor_dataset_changes` the snapshot-plus-diff creation block
(geometry_service.py lines 326-439) is indented under the `else:` of line
281, i.e. under "geometry is NOT problematic".  The problematic branch
(line 220) only handles the has-pending-diff sub-case (lines 237-280) and
otherwise does nothing.  The three evaluations below exhibit the
consequences on concrete runs. -/

/-- C1 fails on the code: a change-detection run over a new, problematic
(invalid, confidence 0.95 ≥ 0.75) row with no pending diff creates **no**
snapshot and **no** diff — the claim requires exactly one of each. -/
theorem C1_problematic_row_creates_nothing :
    is_geometry_problematic rowInvalid = true
    ∧ calculate_confidence_score rowInvalid ≥ TestConfig.get_confidence_threshold
    ∧ exists_pending_for_geometry [snapPoint] [] 5 "g1" = false
    ∧ (monitor_dataset_changes (fun h => h) (fun _ => false) 5 "geom"
        [snapPoint] [] [rowPoint, rowInvalid] 100).snapshots_created = 0
    ∧ (monitor_dataset_changes (fun h => h) (fun _ => false) 5 "geom"
        [snapPoint] [] [rowPoint, rowInvalid] 100).diffs_detected = 0
    ∧ (monitor_dataset_changes (fun h => h) (fun _ => false) 5 "geom"
        [snapPoint] [] [rowPoint, rowInvalid] 100).snaps = [snapPoint]
    ∧ (monitor_dataset_changes (fun h => h) (fun _ => false) 5 "geom"
        [snapPoint] [] [rowPoint, rowInvalid] 100).diffs = [] := by
  decide

/-- C2 fails on the code: a change-detection run over a new,
non-problematic (confidence 0.5 < 0.75, no short-circuit) row creates
**two** snapshot rows for the one feature version and **one** diff — the
claim requires exactly one snapshot and zero diffs. -/
theorem C2_below_threshold_row_creates_diff :
    is_geometry_problematic rowLine = false
    ∧ ¬(calculate_confidence_score rowLine ≥ TestConfig.get_confidence_threshold)
    ∧ (monitor_dataset_changes (fun h => h) (fun _ => false) 5 "geom"
        [snapPoint] [] [rowPoint, rowLine] 100).snapshots_created = 2
    ∧ (monitor_dataset_changes (fun h => h) (fun _ => false) 5 "geom"
        [snapPoint] [] [rowPoint, rowLine] 100).diffs_detected = 1
    ∧ ((monitor_dataset_changes (fun h => h) (fun _ => false) 5 "geom"
        [snapPoint] [] [rowPoint, rowLine] 100).snaps.filter
          (fun p => p.composite_hash = "geom:g2|attrs:name:road")).length = 2
    ∧ ((monitor_dataset_changes (fun h => h) (fun _ => false) 5 "geom"
        [snapPoint] [] [rowPoint, rowLine] 100).diffs.map
          (fun d => d.diff_type)) = ["NEW"] := by
  decide

/-- The C3 scenario's prior snapshot: an earlier version of the `rowLine`
feature (same `geometry_hash`, different attributes). -/
def snapLineOld : GeometrySnapshot :=
  { id := 2, dataset_id := 5, source_id := "", geometry_hash := "g2",
    attributes_hash := "name:lane", composite_hash := "geom:g2|attrs:name:lane",
    attributes := [("name", .str "lane")] }

/-- The C3 scenario's pre-existing PENDING diff, referencing
`snapLineOld` as its new snapshot. -/
def diffPending : GeometryDiff :=
  { dataset_id := 5, diff_type := "NEW", old_snapshot_id := none,
    new_snapshot_id := some 2, geometry_changed := true,
    attributes_changed := false, confidence_score := 1, status := "PENDING" }

/-- C3 fails on the code: a PENDING diff already exists for
`(dataset 5, geometry_hash "g2")`, yet the run over the changed,
non-problematic row with that geometry hash creates another PENDING diff
(the creation block in the non-problematic branch performs no pending
check), leaving **two** PENDING diffs for the same
`(dataset_id, geometry_hash)`. -/
theorem C3_pending_diff_duplicated :
    exists_pending_for_geometry [snapLineOld] [diffPending] 5 "g2" = true
    ∧ is_geometry_problematic rowLine = false
    ∧ count_pending_for [snapLineOld] [diffPending] 5 "g2" = 1
    ∧ count_pending_for
        (monitor_dataset_changes (fun h => h) (fun _ => false) 5 "geom"
          [snapLineOld] [diffPending] [rowLine] 100).snaps
        (monitor_dataset_changes (fun h => h) (fun _ => false) 5 "geom"
          [snapLineOld] [diffPending] [rowLine] 100).diffs 5 "g2" = 2 := by
  decide

/-! ## Claim C4 — baseline runs -/

/-- With no insert failure, one snapshot insert succeeds on the first
attempt. -/
theorem tryInsertSnapshot_noFail (dimFail : Nat → Bool)
    (hf : ∀ n, dimFail n = false) (did : Nat) (gh ah ch : String)
    (attrs : List (String × AttrVal)) (s : Session) :
    tryInsertSnapshot dimFail did gh ah ch attrs s =
      ({ s with attempts := s.attempts + 1,
                pendSnaps := s.pendSnaps ++ [mkSnapshot did s.nextId gh ah ch attrs],
                nextId := s.nextId + 1,
                snapshots_created := s.snapshots_created + 1 }, some s.nextId) := by
  simp [tryInsertSnapshot, insertSnap, hf]

/-- Statistics of the baseline loop under no insert failure: one snapshot
per row, and the diff store, pending diffs and commit count untouched. -/
theorem baseline_foldl_stats (md5 : String → String) (dimFail : Nat → Bool)
    (hf : ∀ n, dimFail n = false) (did : Nat) (gc : String) :
    ∀ (rows : List Row) (s : Session),
      ((rows.foldl (baselineRowStep md5 dimFail did gc) s).snapshots_created
          = s.snapshots_created + rows.length)
      ∧ ((rows.foldl (baselineRowStep md5 dimFail did gc) s).diffs_detected
          = s.diffs_detected)
      ∧ ((rows.foldl (baselineRowStep md5 dimFail did gc) s).diffs = s.diffs)
      ∧ ((rows.foldl (baselineRowStep md5 dimFail did gc) s).pendDiffs = s.pendDiffs)
      ∧ ((rows.foldl (baselineRowStep md5 dimFail did gc) s).snaps = s.snaps)
      ∧ ((rows.foldl (baselineRowStep md5 dimFail did gc) s).commits = s.commits) := by
  intro rows
  induction rows with
  | nil => intro s; simp
  | cons r rest ih =>
    intro s
    have hstep : baselineRowStep md5 dimFail did gc s r =
        { s with attempts := s.attempts + 1,
                 pendSnaps := s.pendSnaps ++
                   [mkSnapshot did s.nextId (r.geometry_hash)
                     (compute_attributes_hash md5 (build_attributes gc r.cols))
                     (compute_composite_hash md5 r.geometry_hash
                       (compute_attributes_hash md5 (build_attributes gc r.cols)))
                     (build_attributes gc r.cols)],
                 nextId := s.nextId + 1,
                 snapshots_created := s.snapshots_created + 1 } := by
      simp only [baselineRowStep, tryInsertSnapshot_noFail dimFail hf]
    obtain ⟨h1, h2, h3, h4, h5, h6⟩ := ih (baselineRowStep md5 dimFail did gc s r)
    rw [List.foldl_cons]
    refine ⟨?_, ?_, ?_, ?_, ?_, ?_⟩
    · rw [h1, hstep]; simp [List.length_cons]; omega
    · rw [h2, hstep]
    · rw [h3, hstep]
    · rw [h4, hstep]
    · rw [h5, hstep]
    · rw [h6, hstep]

/-- C4: a baseline run (zero prior snapshots) that hits no insert failure
creates exactly one snapshot per streamed row (the external query has
already filtered out null geometries) and no diff at all — the deletion
pass is skipped, and the diff store after the final commit is exactly
what it was before the run. -/
theorem C4_baseline_snapshot_per_row (md5 : String → String)
    (dimFail : Nat → Bool) (did : Nat) (gc : String)
    (diffs0 : List GeometryDiff) (rows : List Row) (n0 : Nat)
    (hf : ∀ n, dimFail n = false) :
    (monitor_dataset_changes md5 dimFail did gc [] diffs0 rows n0).snapshots_created
        = rows.length
    ∧ (monitor_dataset_changes md5 dimFail did gc [] diffs0 rows n0).diffs_detected = 0
    ∧ (monitor_dataset_changes md5 dimFail did gc [] diffs0 rows n0).diffs = diffs0 := by
  rw [monitor_dataset_changes, monitor_body]
  simp only [List.length_nil, if_pos rfl]
  obtain ⟨h1, h2, h3, h4, h5, h6⟩ :=
    baseline_foldl_stats md5 dimFail hf did gc rows
      { snaps := [], diffs := diffs0, pendSnaps := [], pendDiffs := [],
        commits := 0, attempts := 0, snapshots_created := 0,
        diffs_detected := 0, nextId := n0 }
  refine ⟨?_, ?_, ?_⟩ <;> simp_all [commitS]

/-- Witness for C4 at a concrete baseline run of two rows. -/
theorem C4_baseline_witness :
    (∀ n, (fun (_ : Nat) => false) n = false)
    ∧ ((monitor_dataset_changes (fun h => h) (fun _ => false) 5 "geom"
          [] [] [rowPoint, rowLine] 100).snapshots_created
        = [rowPoint, rowLine].length
      ∧ (monitor_dataset_changes (fun h => h) (fun _ => false) 5 "geom"
          [] [] [rowPoint, rowLine] 100).diffs_detected = 0
      ∧ (monitor_dataset_changes (fun h => h) (fun _ => false) 5 "geom"
          [] [] [rowPoint, rowLine] 100).diffs = []) :=
  ⟨fun _ => rfl,
   C4_baseline_snapshot_per_row (fun h => h) (fun _ => false) 5 "geom" []
     [rowPoint, rowLine] 100 (fun _ => rfl)⟩

/-! ## Claim C5 — the deletion pass

Helper lemmas: the main loop writes no DELETED diff, and the deletion
pass appends one DELETED diff per absent entry of the `existing_hashes`
dict (whose values are the **last** prior snapshot per composite hash). -/

/-- Source: `_determine_diff_type` only ever answers NEW, UPDATED or DUPLICATE. -/
theorem determine_diff_type_ne_deleted (g a : String) :
    ∀ (l : List GeometrySnapshot), ¬(determine_diff_type g a l = "DELETED") := by
  intro l
  induction l with
  | nil => simp [determine_diff_type]
  | cons p rest ih =>
    rw [determine_diff_type]
    split_ifs <;> simp_all

/-- The diff written by `addDiffFor` never matches a predicate that only
holds for DELETED diffs. -/
theorem addDiffFor_countP (P : GeometryDiff → Bool)
    (hP : ∀ d, P d = true → d.diff_type = "DELETED")
    (did : Nat) (r : Row) (ah : String) (priors : List GeometrySnapshot)
    (snapId : Nat) (s : Session) :
    (addDiffFor did r ah priors snapId s).pendDiffs.countP P
      = s.pendDiffs.countP P := by
  have hfalse : ∀ (d : GeometryDiff),
      d.diff_type = determine_diff_type r.geometry_hash ah priors → P d = false := by
    intro d hd
    cases hPd : P d
    · rfl
    · exact absurd (hd ▸ hP d hPd) (determine_diff_type_ne_deleted _ _ priors)
  unfold addDiffFor
  simp only []
  split <;>
    simp [List.countP_append, List.countP_cons, List.countP_nil, hfalse]

/-- Source: `changeRowStep` leaves the committed stores and the commit count
alone when no insert fails. -/
theorem changeRowStep_store (md5 : String → String) (dimFail : Nat → Bool)
    (hf : ∀ n, dimFail n = false) (did : Nat) (gc : String)
    (priors : List GeometrySnapshot) (s : Session) (r : Row) :
    ((changeRowStep md5 dimFail did gc priors s r).snaps = s.snaps)
    ∧ ((changeRowStep md5 dimFail did gc priors s r).diffs = s.diffs)
    ∧ ((changeRowStep md5 dimFail did gc priors s r).commits = s.commits) := by
  simp only [changeRowStep, tryInsertSnapshot_noFail dimFail hf, hf, insertSnap,
    addDiffFor, Bool.false_eq_true, if_false]
  split_ifs <;> simp_all

/-- Source: `changeRowStep` never adds a diff a DELETED-only predicate counts. -/
theorem changeRowStep_countP (P : GeometryDiff → Bool)
    (hP : ∀ d, P d = true → d.diff_type = "DELETED")
    (md5 : String → String) (dimFail : Nat → Bool)
    (hf : ∀ n, dimFail n = false) (did : Nat) (gc : String)
    (priors : List GeometrySnapshot) (s : Session) (r : Row) :
    (changeRowStep md5 dimFail did gc priors s r).pendDiffs.countP P
      = s.pendDiffs.countP P := by
  simp only [changeRowStep, tryInsertSnapshot_noFail dimFail hf, hf, insertSnap,
    Bool.false_eq_true, if_false]
  split_ifs <;> simp_all [addDiffFor_countP P hP]

/-- Folding the change loop over all rows preserves the committed stores,
the commit count, and any DELETED-only diff count. -/
theorem change_foldl_inv (P : GeometryDiff → Bool)
    (hP : ∀ d, P d = true → d.diff_type = "DELETED")
    (md5 : String → String) (dimFail : Nat → Bool)
    (hf : ∀ n, dimFail n = false) (did : Nat) (gc : String)
    (priors : List GeometrySnapshot) :
    ∀ (rows : List Row) (s : Session),
      ((rows.foldl (changeRowStep md5 dimFail did gc priors) s).snaps = s.snaps)
      ∧ ((rows.foldl (changeRowStep md5 dimFail did gc priors) s).diffs = s.diffs)
      ∧ ((rows.foldl (changeRowStep md5 dimFail did gc priors) s).commits = s.commits)
      ∧ ((rows.foldl (changeRowStep md5 dimFail did gc priors) s).pendDiffs.countP P
          = s.pendDiffs.countP P) := by
  intro rows
  induction rows with
  | nil => intro s; simp
  | cons r rest ih =>
    intro s
    rw [List.foldl_cons]
    obtain ⟨i1, i2, i3, i4⟩ := ih (changeRowStep md5 dimFail did gc priors s r)
    obtain ⟨j1, j2, j3⟩ := changeRowStep_store md5 dimFail hf did gc priors s r
    have j4 := changeRowStep_countP P hP md5 dimFail hf did gc priors s r
    exact ⟨i1.trans j1, i2.trans j2, i3.trans j3, i4.trans j4⟩

/-- The deletion pass only appends to the pending diffs: committed stores
and commit count are untouched, and the appended diffs are exactly one
`deleted_diff` per absent `existing_hashes` entry. -/
theorem deletionPass_foldl_pendDiffs (did : Nat) (current : List String) :
    ∀ (entries : List (String × GeometrySnapshot)) (s : Session),
      ((entries.foldl (fun s hp =>
          if current.contains hp.1 then s
          else { s with pendDiffs := s.pendDiffs ++ [deleted_diff did hp.2],
                        diffs_detected := s.diffs_detected + 1 }) s).pendDiffs
        = s.pendDiffs ++ entries.filterMap (fun hp =>
            if current.contains hp.1 then none else some (deleted_diff did hp.2)))
      ∧ ((entries.foldl (fun s hp =>
          if current.contains hp.1 then s
          else { s with pendDiffs := s.pendDiffs ++ [deleted_diff did hp.2],
                        diffs_detected := s.diffs_detected + 1 }) s).snaps = s.snaps)
      ∧ ((entries.foldl (fun s hp =>
          if current.contains hp.1 then s
          else { s with pendDiffs := s.pendDiffs ++ [deleted_diff did hp.2],
                        diffs_detected := s.diffs_detected + 1 }) s).diffs = s.diffs)
      ∧ ((entries.foldl (fun s hp =>
          if current.contains hp.1 then s
          else { s with pendDiffs := s.pendDiffs ++ [deleted_diff did hp.2],
                        diffs_detected := s.diffs_detected + 1 }) s).commits = s.commits) := by
  intro entries
  induction entries with
  | nil => intro s; simp
  | cons hp rest ih =>
    intro s
    rw [List.foldl_cons, List.filterMap_cons]
    by_cases hc : current.contains hp.1
    · obtain ⟨i1, i2, i3, i4⟩ := ih s
      simp only [hc, if_true, if_pos]
      exact ⟨i1, i2, i3, i4⟩
    · obtain ⟨i1, i2, i3, i4⟩ := ih
        { s with pendDiffs := s.pendDiffs ++ [deleted_diff did hp.2],
                 diffs_detected := s.diffs_detected + 1 }
      simp only [hc, if_false, Bool.false_eq_true, if_neg, not_false_iff]
      refine ⟨?_, i2, i3, i4⟩
      rw [i1]
      simp

/-- The keys of the snapshot dict after one insertion. -/
theorem snapshotDictInsert_keys (m : List (String × GeometrySnapshot))
    (p : GeometrySnapshot) :
    (snapshotDictInsert m p).map Prod.fst =
      if m.any (fun q => q.1 = p.composite_hash) then m.map Prod.fst
      else m.map Prod.fst ++ [p.composite_hash] := by
  unfold snapshotDictInsert
  split_ifs with h
  · rw [List.map_map]
    apply List.map_congr_left
    intro q _
    by_cases hqk : q.1 = p.composite_hash <;> simp [hqk]
  · simp

/-- Every entry of the snapshot dict after an insertion is an old entry
or the freshly inserted pair. -/
theorem snapshotDictInsert_entries (m : List (String × GeometrySnapshot))
    (p : GeometrySnapshot) (hp : (String × GeometrySnapshot))
    (hmem : hp ∈ snapshotDictInsert m p) :
    hp ∈ m ∨ hp = (p.composite_hash, p) := by
  unfold snapshotDictInsert at hmem
  split_ifs at hmem with h
  · obtain ⟨q, hq, rfl⟩ := List.mem_map.mp hmem
    by_cases hqk : q.1 = p.composite_hash
    · right; simp [hqk]
    · left; simpa [hqk] using hq
  · rcases List.mem_append.mp hmem with hmem | hmem
    · exact Or.inl hmem
    · right; simpa using hmem

/-- The invariants of the `existing_hashes` dict fold: every entry keys a
prior snapshot by its own composite hash, keys are distinct, and the key
set keeps old keys and gains each folded snapshot's composite hash. -/
theorem existing_hashes_foldl_inv (priors0 : List GeometrySnapshot) :
    ∀ (l : List GeometrySnapshot) (m : List (String × GeometrySnapshot)),
      (∀ hp ∈ m, hp.2 ∈ priors0 ∧ hp.2.composite_hash = hp.1) →
      ((m.map Prod.fst).Nodup) →
      (∀ q ∈ l, q ∈ priors0) →
      (∀ hp ∈ l.foldl snapshotDictInsert m, hp.2 ∈ priors0 ∧ hp.2.composite_hash = hp.1)
      ∧ ((l.foldl snapshotDictInsert m).map Prod.fst).Nodup
      ∧ (∀ k ∈ m.map Prod.fst, k ∈ (l.foldl snapshotDictInsert m).map Prod.fst)
      ∧ (∀ p ∈ l, p.composite_hash ∈ (l.foldl snapshotDictInsert m).map Prod.fst) := by
  intro l
  induction l with
  | nil =>
    intro m hm hnd _
    exact ⟨hm, hnd, fun k hk => hk, by simp⟩
  | cons q rest ih =>
    intro m hm hnd hl
    rw [List.foldl_cons]
    have hm' : ∀ hp ∈ snapshotDictInsert m q, hp.2 ∈ priors0 ∧ hp.2.composite_hash = hp.1 := by
      intro hp hmem
      rcases snapshotDictInsert_entries m q hp hmem with h | rfl
      · exact hm hp h
      · exact ⟨hl q (List.mem_cons_self q rest), rfl⟩
    have hnd' : ((snapshotDictInsert m q).map Prod.fst).Nodup := by
      rw [snapshotDictInsert_keys]
      split_ifs with h
      · exact hnd
      · rw [List.nodup_append]
        refine ⟨hnd, List.nodup_singleton _, ?_⟩
        intro k hk hk'
        rw [List.mem_singleton] at hk'
        subst hk'
        obtain ⟨e, he, heq⟩ := List.mem_map.mp hk
        exact absurd (List.any_eq_true.mpr ⟨e, he, by simp [heq]⟩) h
    have hsup : ∀ k ∈ m.map Prod.fst, k ∈ (snapshotDictInsert m q).map Prod.fst := by
      intro k hk
      rw [snapshotDictInsert_keys]
      split_ifs
      · exact hk
      · exact List.mem_append.mpr (Or.inl hk)
    have hq_in : q.composite_hash ∈ (snapshotDictInsert m q).map Prod.fst := by
      rw [snapshotDictInsert_keys]
      split_ifs with h
      · obtain ⟨e, he, heq⟩ := List.any_eq_true.mp h
        exact List.mem_map.mpr ⟨e, he, by simpa using heq⟩
      · simp
    obtain ⟨r1, r2, r3, r4⟩ := ih (snapshotDictInsert m q) hm' hnd'
      (fun x hx => hl x (List.mem_cons_of_mem q hx))
    refine ⟨r1, r2, fun k hk => r3 k (hsup k hk), ?_⟩
    intro p hp
    rcases List.mem_cons.mp hp with rfl | hp
    · exact r3 _ hq_in
    · exact r4 p hp

/-- Counting the DELETED diffs the deletion pass emits for one composite
hash class: over dict entries with distinct keys, each valuing a prior
snapshot by its own composite hash, exactly one emitted diff references a
prior snapshot of the target class — provided the target hash is absent
from the current hashes and snapshot ids are distinct.  `E` abstracts
any further field checks that hold on every `deleted_diff`. -/
theorem deletion_filterMap_countP (did : Nat) (current : List String)
    (priors : List GeometrySnapshot)
    (hids : (priors.map (fun p => p.id)).Nodup)
    (pc : String) (hpabs : ¬(current.contains pc = true))
    (E : GeometryDiff → Bool)
    (hE : ∀ w, E (deleted_diff did w) = true) :
    ∀ (l : List (String × GeometrySnapshot)),
      (∀ hp ∈ l, hp.2 ∈ priors ∧ hp.2.composite_hash = hp.1) →
      ((l.map Prod.fst).Nodup) →
      ((l.filterMap (fun hp => if current.contains hp.1 then none
          else some (deleted_diff did hp.2))).countP
        (fun d => d.diff_type = "DELETED"
          && priors.any (fun q => q.composite_hash = pc
              && d.old_snapshot_id = some q.id)
          && E d))
      = if pc ∈ l.map Prod.fst then 1 else 0 := by
  intro l
  induction l with
  | nil => intro _ _; simp
  | cons hp rest ih =>
    intro hent hnd
    obtain ⟨hw_mem, hw_comp⟩ := hent hp (List.mem_cons_self hp rest)
    have hnd_rest : (rest.map Prod.fst).Nodup := by
      rw [List.map_cons, List.nodup_cons] at hnd
      exact hnd.2
    have hhead_not : hp.1 ∉ rest.map Prod.fst := by
      rw [List.map_cons, List.nodup_cons] at hnd
      exact hnd.1
    have ihr := ih (fun e he => hent e (List.mem_cons_of_mem hp he)) hnd_rest
    rw [List.filterMap_cons]
    by_cases hc : current.contains hp.1 = true
    · have hne : pc ≠ hp.1 := fun h => hpabs (h ▸ hc)
      have hmem_eq : (pc ∈ (hp :: rest).map Prod.fst) = (pc ∈ rest.map Prod.fst) := by
        simp only [List.map_cons, List.mem_cons]
        exact propext (or_iff_right hne)
      simp only [hc, if_true, ihr, hmem_eq]
    · simp only [hc, if_false, Bool.false_eq_true, List.countP_cons, ihr]
      by_cases hkey : hp.1 = pc
      · have hPtrue : ((decide ((deleted_diff did hp.2).diff_type = "DELETED")
            && priors.any (fun q => decide (q.composite_hash = pc)
                && decide ((deleted_diff did hp.2).old_snapshot_id = some q.id)))
            && E (deleted_diff did hp.2)) = true := by
          simp only [Bool.and_eq_true, decide_eq_true_eq]
          refine ⟨⟨rfl, ?_⟩, hE hp.2⟩
          exact List.any_eq_true.mpr ⟨hp.2, hw_mem,
            by simp [deleted_diff, hw_comp, hkey]⟩
        have hrest0 : pc ∉ rest.map Prod.fst := hkey ▸ hhead_not
        simp only [hPtrue, if_true, List.map_cons, List.mem_cons, hkey, hrest0,
          if_pos (Or.inl rfl), or_false, if_neg hrest0, true_or, if_true]
        simp
      · have hPfalse : ((decide ((deleted_diff did hp.2).diff_type = "DELETED")
            && priors.any (fun q => decide (q.composite_hash = pc)
                && decide ((deleted_diff did hp.2).old_snapshot_id = some q.id)))
            && E (deleted_diff did hp.2)) = false := by
          by_contra hcon
          rw [Bool.not_eq_false, Bool.and_eq_true, Bool.and_eq_true] at hcon
          obtain ⟨⟨-, hany⟩, -⟩ := hcon
          obtain ⟨q, hq_mem, hq⟩ := List.any_eq_true.mp hany
          rw [Bool.and_eq_true, decide_eq_true_eq, decide_eq_true_eq] at hq
          obtain ⟨hq_comp, hq_id⟩ := hq
          have hq_id2 : hp.2.id = q.id := by
            simpa [deleted_diff] using hq_id
          have heq : hp.2 = q :=
            List.inj_on_of_nodup_map hids hw_mem hq_mem hq_id2
          exact hkey (hw_comp.symm.trans (heq ▸ hq_comp))
        have hne : pc ≠ hp.1 := fun h => hkey h.symm
        have hmem_eq : (pc ∈ (hp :: rest).map Prod.fst) = (pc ∈ rest.map Prod.fst) := by
          simp only [List.map_cons, List.mem_cons]
          exact propext (or_iff_right hne)
        simp only [hPfalse, hmem_eq, Bool.false_eq_true, if_false, Nat.add_zero]

/-- Two prior snapshots of one dataset sharing a composite hash — exactly
what a baseline run writes when the source holds two identical features
(geometry and attributes alike). -/
def snapDupA : GeometrySnapshot :=
  { id := 11, dataset_id := 5, source_id := "", geometry_hash := "gd",
    attributes_hash := "ad", composite_hash := "geom:gd|attrs:ad",
    attributes := [] }

/-- The later-fetched duplicate of `snapDupA`. -/
def snapDupB : GeometrySnapshot :=
  { id := 12, dataset_id := 5, source_id := "", geometry_hash := "gd",
    attributes_hash := "ad", composite_hash := "geom:gd|attrs:ad",
    attributes := [] }

/-- C5 fails on the code: with two prior snapshots sharing a composite
hash and an empty source, the deletion pass iterates the
`existing_hashes` dict (last entry wins), so only **one** DELETED diff is
created and it references `snapDupB`; no diff at all references
`snapDupA`, although the claim demands exactly one for it. -/
theorem C5_counterexample :
    snapDupA.composite_hash = snapDupB.composite_hash
    ∧ ((current_composite_hashes (fun h => h) "geom" []).contains
        snapDupA.composite_hash) = false
    ∧ (monitor_dataset_changes (fun h => h) (fun _ => false) 5 "geom"
        [snapDupA, snapDupB] [] [] 100).diffs = [deleted_diff 5 snapDupB]
    ∧ ((monitor_dataset_changes (fun h => h) (fun _ => false) 5 "geom"
        [snapDupA, snapDupB] [] [] 100).diffs.countP
          (fun d => d.diff_type = "DELETED"
            && d.old_snapshot_id = some snapDupA.id)) = 0 := by
  decide

/-- C5 (amended): baseline runs write no diff at all; on change-detection
runs, for every **distinct composite hash** among the prior snapshots
that is absent from the run's current hashes, exactly one DELETED diff is
written, and it references some prior snapshot bearing that composite
hash (namely the last-fetched one), with null new reference, confidence
1.0 and the dataset's id.  Requires distinct prior snapshot ids (the
store's primary key) and no insert failure. -/
theorem C5_deleted_diff_per_composite (md5 : String → String)
    (dimFail : Nat → Bool) (did : Nat) (gc : String)
    (priors : List GeometrySnapshot) (diffs0 : List GeometryDiff)
    (rows : List Row) (n0 : Nat)
    (hf : ∀ n, dimFail n = false)
    (hids : (priors.map (fun p => p.id)).Nodup) :
    (priors = [] →
      (monitor_body md5 dimFail did gc priors diffs0 rows n0).pendDiffs = [])
    ∧ (∀ p ∈ priors,
        ¬((current_composite_hashes md5 gc rows).contains p.composite_hash = true) →
        ((monitor_body md5 dimFail did gc priors diffs0 rows n0).pendDiffs.countP
          (fun d => d.diff_type = "DELETED"
            && priors.any (fun q => q.composite_hash = p.composite_hash
                && d.old_snapshot_id = some q.id)
            && (d.new_snapshot_id = none && decide (d.confidence_score = 1)
                && d.dataset_id = did)) = 1)) := by
  constructor
  · rintro rfl
    rw [monitor_body]
    simp only [List.length_nil, if_pos rfl]
    exact (baseline_foldl_stats md5 dimFail hf did gc rows _).2.2.2.1
  · intro p hp habs
    have hne : ¬(priors.length = 0) := by
      intro h
      rw [List.length_eq_zero] at h
      subst h
      cases hp
    rw [monitor_body]
    simp only [if_neg hne]
    rw [deletionPass]
    obtain ⟨hd1, -, -, -⟩ := deletionPass_foldl_pendDiffs did
      (current_composite_hashes md5 gc rows) (existing_hashes_dict priors)
      (rows.foldl (changeRowStep md5 dimFail did gc priors)
        { snaps := priors, diffs := diffs0, pendSnaps := [], pendDiffs := [],
          commits := 0, attempts := 0, snapshots_created := 0,
          diffs_detected := 0, nextId := n0 })
    rw [hd1, List.countP_append]
    have hP : ∀ (d : GeometryDiff),
        (decide (d.diff_type = "DELETED")
          && priors.any (fun q => decide (q.composite_hash = p.composite_hash)
              && decide (d.old_snapshot_id = some q.id))
          && (decide (d.new_snapshot_id = none) && decide (d.confidence_score = 1)
              && decide (d.dataset_id = did))) = true →
        d.diff_type = "DELETED" := by
      intro d hd
      rw [Bool.and_eq_true, Bool.and_eq_true] at hd
      exact of_decide_eq_true hd.1.1
    have hmain := (change_foldl_inv _ hP md5 dimFail hf did gc priors rows
      { snaps := priors, diffs := diffs0, pendSnaps := [], pendDiffs := [],
        commits := 0, attempts := 0, snapshots_created := 0,
        diffs_detected := 0, nextId := n0 }).2.2.2
    rw [hmain]
    simp only [List.countP_nil, Nat.zero_add]
    obtain ⟨r1, r2, -, r4⟩ := existing_hashes_foldl_inv priors priors []
      (by intro hp h; cases h) (by simp) (fun q hq => hq)
    have hcount := deletion_filterMap_countP did
      (current_composite_hashes md5 gc rows) priors hids p.composite_hash habs
      (fun d => d.new_snapshot_id = none && decide (d.confidence_score = 1)
        && d.dataset_id = did)
      (fun w => by simp [deleted_diff])
      (existing_hashes_dict priors) r1 r2
    rw [existing_hashes_dict] at hcount ⊢
    rw [hcount, if_pos (r4 p hp)]

/-- Witness for the amended C5 at the duplicate-composite scenario: one
DELETED diff is written for the class of `snapDupA`'s composite hash. -/
theorem C5_witness :
    (∀ n, (fun (_ : Nat) => false) n = false)
    ∧ (([snapDupA, snapDupB].map (fun p => p.id)).Nodup)
    ∧ ¬((current_composite_hashes (fun h => h) "geom" []).contains
          snapDupA.composite_hash = true)
    ∧ ((monitor_body (fun h => h) (fun _ => false) 5 "geom"
          [snapDupA, snapDupB] [] [] 100).pendDiffs.countP
        (fun d => d.diff_type = "DELETED"
          && [snapDupA, snapDupB].any (fun q => q.composite_hash = snapDupA.composite_hash
              && d.old_snapshot_id = some q.id)
          && (d.new_snapshot_id = none && decide (d.confidence_score = 1)
              && d.dataset_id = 5)) = 1) :=
  ⟨fun _ => rfl, by decide, by decide,
    (C5_deleted_diff_per_composite (fun h => h) (fun _ => false) 5 "geom"
        [snapDupA, snapDupB] [] [] 100 (fun _ => rfl) (by decide)).2
      snapDupA (by decide) (by decide)⟩

/-! ## Claim C6 — commit discipline -/

/-- A second healthy linestring feature for the C6 scenario. -/
def rowLine2 : Row :=
  { geometry_wkb := "w3", geometry_hash := "g3", is_valid := true,
    is_simple := true, is_topologically_clean := true,
    geom_area := some 0, geom_length := some 7, num_points := some 2,
    geom_type := "ST_LineString", min_x := some (.finite 0), max_x := some (.finite 3),
    min_y := some (.finite 0), max_y := some (.finite 4),
    cols := [("name", some (.str "bridge"))] }

/-- C6 fails on the code: when the third insert attempt of a run (the
first insert of the second row) hits the dimension-constraint violation,
the self-repair of `_ensure_mixed_dimension_support` rolls the session
back — discarding the first row's two flushed snapshots and its diff —
and commits; the run then continues and finishes with SUCCESS.  Of the 4
snapshot writes and 3 diff writes the run performed, only 2 snapshots and
2 diffs are committed: a nonempty proper subset, and two commits happened
instead of one. -/
theorem C6_counterexample :
    (monitor_dataset_changes (fun h => h) (fun n => n = 2) 5 "geom"
        [snapPoint] [] [rowLine, rowLine2] 100).snapshots_created = 4
    ∧ (monitor_dataset_changes (fun h => h) (fun n => n = 2) 5 "geom"
        [snapPoint] [] [rowLine, rowLine2] 100).diffs_detected = 3
    ∧ (monitor_dataset_changes (fun h => h) (fun n => n = 2) 5 "geom"
        [snapPoint] [] [rowLine, rowLine2] 100).snaps.length = 3
    ∧ (monitor_dataset_changes (fun h => h) (fun n => n = 2) 5 "geom"
        [snapPoint] [] [rowLine, rowLine2] 100).diffs.length = 2
    ∧ (monitor_dataset_changes (fun h => h) (fun n => n = 2) 5 "geom"
        [snapPoint] [] [rowLine, rowLine2] 100).commits = 2
    ∧ ((monitor_dataset_changes (fun h => h) (fun n => n = 2) 5 "geom"
        [snapPoint] [] [rowLine, rowLine2] 100).snaps.countP
          (fun p => p.id = 100)) = 0 := by
  decide

/-- C6 (amended): as long as no dimension-constraint repair fires, the
run body leaves the committed stores and commit count untouched, and the
single final commit publishes exactly the run's accumulated snapshot and
diff writes in one step. -/
theorem C6_single_commit (md5 : String → String) (dimFail : Nat → Bool)
    (did : Nat) (gc : String) (priors : List GeometrySnapshot)
    (diffs0 : List GeometryDiff) (rows : List Row) (n0 : Nat)
    (hf : ∀ n, dimFail n = false) :
    ((monitor_body md5 dimFail did gc priors diffs0 rows n0).snaps = priors)
    ∧ ((monitor_body md5 dimFail did gc priors diffs0 rows n0).diffs = diffs0)
    ∧ ((monitor_body md5 dimFail did gc priors diffs0 rows n0).commits = 0)
    ∧ ((monitor_dataset_changes md5 dimFail did gc priors diffs0 rows n0).commits = 1)
    ∧ ((monitor_dataset_changes md5 dimFail did gc priors diffs0 rows n0).snaps
        = priors ++ (monitor_body md5 dimFail did gc priors diffs0 rows n0).pendSnaps)
    ∧ ((monitor_dataset_changes md5 dimFail did gc priors diffs0 rows n0).diffs
        = diffs0 ++ (monitor_body md5 dimFail did gc priors diffs0 rows n0).pendDiffs) := by
  have hbody : ((monitor_body md5 dimFail did gc priors diffs0 rows n0).snaps = priors)
      ∧ ((monitor_body md5 dimFail did gc priors diffs0 rows n0).diffs = diffs0)
      ∧ ((monitor_body md5 dimFail did gc priors diffs0 rows n0).commits = 0) := by
    rw [monitor_body]
    by_cases h : priors.length = 0
    · simp only [if_pos h]
      obtain ⟨-, -, h3, -, h5, h6⟩ := baseline_foldl_stats md5 dimFail hf did gc rows
        { snaps := priors, diffs := diffs0, pendSnaps := [], pendDiffs := [],
          commits := 0, attempts := 0, snapshots_created := 0,
          diffs_detected := 0, nextId := n0 }
      exact ⟨h5, h3, h6⟩
    · simp only [if_neg h]
      rw [deletionPass]
      obtain ⟨-, e2, e3, e4⟩ := deletionPass_foldl_pendDiffs did
        (current_composite_hashes md5 gc rows) (existing_hashes_dict priors)
        (rows.foldl (changeRowStep md5 dimFail did gc priors)
          { snaps := priors, diffs := diffs0, pendSnaps := [], pendDiffs := [],
            commits := 0, attempts := 0, snapshots_created := 0,
            diffs_detected := 0, nextId := n0 })
      obtain ⟨m1, m2, m3, -⟩ := change_foldl_inv (fun _ => false)
        (fun d hd => absurd hd (by simp)) md5 dimFail hf did gc priors rows
        { snaps := priors, diffs := diffs0, pendSnaps := [], pendDiffs := [],
          commits := 0, attempts := 0, snapshots_created := 0,
          diffs_detected := 0, nextId := n0 }
      exact ⟨e2.trans m1, e3.trans m2, e4.trans m3⟩
  obtain ⟨hb1, hb2, hb3⟩ := hbody
  refine ⟨hb1, hb2, hb3, ?_, ?_, ?_⟩ <;>
    · rw [monitor_dataset_changes, commitS]
      simp [hb1, hb2, hb3]

/-- Witness for the amended C6 on a concrete change-detection run with no
insert failure. -/
theorem C6_witness :
    (∀ n, (fun (_ : Nat) => false) n = false)
    ∧ (((monitor_body (fun h => h) (fun _ => false) 5 "geom"
          [snapPoint] [] [rowLine, rowLine2] 100).snaps = [snapPoint])
      ∧ ((monitor_body (fun h => h) (fun _ => false) 5 "geom"
          [snapPoint] [] [rowLine, rowLine2] 100).diffs = [])
      ∧ ((monitor_body (fun h => h) (fun _ => false) 5 "geom"
          [snapPoint] [] [rowLine, rowLine2] 100).commits = 0)
      ∧ ((monitor_dataset_changes (fun h => h) (fun _ => false) 5 "geom"
          [snapPoint] [] [rowLine, rowLine2] 100).commits = 1)
      ∧ ((monitor_dataset_changes (fun h => h) (fun _ => false) 5 "geom"
          [snapPoint] [] [rowLine, rowLine2] 100).snaps
          = [snapPoint] ++ (monitor_body (fun h => h) (fun _ => false) 5 "geom"
              [snapPoint] [] [rowLine, rowLine2] 100).pendSnaps)
      ∧ ((monitor_dataset_changes (fun h => h) (fun _ => false) 5 "geom"
          [snapPoint] [] [rowLine, rowLine2] 100).diffs
          = [] ++ (monitor_body (fun h => h) (fun _ => false) 5 "geom"
              [snapPoint] [] [rowLine, rowLine2] 100).pendDiffs)) :=
  ⟨fun _ => rfl,
   C6_single_commit (fun h => h) (fun _ => false) 5 "geom" [snapPoint] []
     [rowLine, rowLine2] 100 (fun _ => rfl)⟩

/-! ## Claim C8 — quality-check start and background run -/

/-- A dataset that has completed a change-detection run. -/
def dsQC : DatasetRec := { id := "d1", name := "roads", last_check_at := some 1 }

/-- C8's gating holds (404 for a missing dataset, 400 for a null
`last_check_at`, 400 for an already-running entry, otherwise a `running`
entry with progress `{0, 0, "initializing"}` and an immediate return) —
but the background task can never finish: the engine call passes two
positional arguments to a one-argument method (TypeError), the except
handler's `dataset.get` raises AttributeError on the ORM object, and the
status map stays exactly as the start endpoint left it, `running`
forever, whatever the engine would have returned. -/
theorem C8_background_never_completes :
    (start_quality_checks none []).1 = .httpError 404
    ∧ (start_quality_checks
        (some { id := "d1", name := "roads", last_check_at := none }) []).1
        = .httpError 400
    ∧ (start_quality_checks (some dsQC)
        [("d1", { status := "running", progress := none, error := none })]).1
        = .httpError 400
    ∧ (start_quality_checks (some dsQC) []).1 = .started
    ∧ qcLookup (start_quality_checks (some dsQC) []).2 "d1"
        = some { status := "running", progress := some ⟨0, 0, "initializing"⟩,
                 error := none }
    ∧ ¬(run_quality_checks_call_argument_count = run_quality_checks_parameter_count)
    ∧ (∀ engineResult, run_quality_checks_background dsQC engineResult
          (start_quality_checks (some dsQC) []).2
        = (start_quality_checks (some dsQC) []).2) :=
  ⟨rfl, rfl, rfl, rfl, rfl, by decide, fun _ => rfl⟩

end DbfriendCloud
